import Mathlib

/-!
Verification of the filtered-dataset fingerprinting and KPI aggregation
pipeline of the Chinook dashboard (services/sql_core.py, services/kpis/*,
services/display_utils.py), as a shallow embedding: tables are lists of
records, SQL queries become list comprehensions, pandas operations become
explicit list functions.  Python/NumPy floats are modelled by `PyFloat`
(a rational together with nan/inf), dates by explicit (year, month, day)
records.
-/

namespace Chinook

/-! ## Calendar dates -/

/-- A calendar date, as (year, month, day).  SQL DATE values and pandas
`date` objects are modelled by this record. -/
structure Date where
  year : Int
  month : Int
  day : Int
deriving DecidableEq, Repr

/-- Month index used for month differences: `year*12 + month`.
DuckDB `DATE_DIFF('month', a, b)` equals `b.monthIdx - a.monthIdx`. -/
def Date.monthIdx (d : Date) : Int := d.year * 12 + d.month

/-- Lexicographic `≤` on dates (year, then month, then day). -/
def Date.le (a b : Date) : Prop :=
  a.year < b.year ∨ (a.year = b.year ∧
    (a.month < b.month ∨ (a.month = b.month ∧ a.day ≤ b.day)))

instance (a b : Date) : Decidable (Date.le a b) := by
  unfold Date.le; infer_instance

/-- Boolean form of `Date.le`, used inside SQL-style filters. -/
def Date.leB (a b : Date) : Bool := decide (Date.le a b)

/-- Strict lexicographic `<` on dates. -/
def Date.lt (a b : Date) : Prop := Date.le a b ∧ ¬ Date.le b a

instance (a b : Date) : Decidable (Date.lt a b) := by
  unfold Date.lt; infer_instance

/-- Boolean form of `Date.lt`. -/
def Date.ltB (a b : Date) : Bool := decide (Date.lt a b)

/-- `a BETWEEN lo AND hi` on dates. -/
def Date.betweenB (a lo hi : Date) : Bool := Date.leB lo a && Date.leB a hi

/-- `DATE_TRUNC('month', d)` / `to_period('M').start_time`: first day of
the month of `d`. -/
def Date.firstOfMonth (d : Date) : Date := ⟨d.year, d.month, 1⟩

/-- Gregorian leap-year test. -/
def isLeapYear (y : Int) : Bool :=
  y % 4 = 0 && (y % 100 ≠ 0 || y % 400 = 0)

/-- Number of days in a calendar month. -/
def daysInMonth (y m : Int) : Int :=
  if m = 2 then (if isLeapYear y then 29 else 28)
  else if m = 4 ∨ m = 6 ∨ m = 9 ∨ m = 11 then 30
  else 31

/-- `to_period('M').end_time.date()`: last day of the month of `d`. -/
def Date.lastOfMonth (d : Date) : Date := ⟨d.year, d.month, daysInMonth d.year d.month⟩

/-- Days since 1970-01-01 (proleptic Gregorian), the standard
civil-from-days formula with floor division.  Used to model subtraction
of Python `date` objects (`(d2 - d1).days`). -/
def Date.toDays (d : Date) : Int :=
  let y := if d.month ≤ 2 then d.year - 1 else d.year
  let era := Int.fdiv y 400
  let yoe := y - era * 400
  let mp := (d.month + 9) % 12
  let doy := Int.fdiv (153 * mp + 2) 5 + d.day - 1
  let doe := yoe * 365 + Int.fdiv yoe 4 - Int.fdiv yoe 100 + doy
  era * 146097 + doe - 719468

/-- `(b - a).days` for Python dates. -/
def Date.daysBetween (a b : Date) : Int := b.toDays - a.toDays

/-- `DATE_DIFF('month', a, b)` (DuckDB) and the Python helper
`month_diff` in retention.py: `(b.year - a.year)*12 + (b.month - a.month)`. -/
def Date.monthDiff (a b : Date) : Int := b.monthIdx - a.monthIdx

/-! ## Generic list helpers (pandas/SQL building blocks) -/

/-- Worker for first-occurrence deduplication: `seen` holds the keys
already emitted. -/
def dedupByKeyAux {α : Type} {κ : Type} [DecidableEq κ] (key : α → κ)
    (seen : List κ) : List α → List α
  | [] => []
  | x :: xs =>
    if decide (key x ∈ seen) then dedupByKeyAux key seen xs
    else x :: dedupByKeyAux key (key x :: seen) xs

/-- First-occurrence deduplication by a key, as in pandas
`drop_duplicates(subset=…)` and `Series.unique()`. -/
def dedupByKey {α : Type} {κ : Type} [DecidableEq κ] (key : α → κ)
    (l : List α) : List α :=
  dedupByKeyAux key [] l

/-- First-occurrence deduplication of the values themselves. -/
def uniqueFirst {α : Type} [DecidableEq α] (l : List α) : List α := dedupByKey id l

/-- `COUNT(DISTINCT …)` over a column given as a list. -/
def countDistinct {α : Type} [DecidableEq α] (l : List α) : Nat := (uniqueFirst l).length

/-- SQL LEFT JOIN of one row against a match list: no match yields a
single row with a NULL right side. -/
def leftJoin1 {α β : Type} (a : α) (matches' : List β) : List (α × Option β) :=
  match matches' with
  | [] => [(a, none)]
  | ms => ms.map fun b => (a, some b)

/-- Lexicographic `≤` on character lists by code point, as Python's
string comparison (and DuckDB's ORDER BY on varchars) performs it. -/
def charListLe : List Char → List Char → Bool
  | [], _ => true
  | _ :: _, [] => false
  | a :: as, b :: bs =>
    if a.toNat < b.toNat then true
    else if b.toNat < a.toNat then false
    else charListLe as bs

theorem charListLe_total : ∀ x y, charListLe x y = true ∨ charListLe y x = true
  | [], _ => Or.inl rfl
  | _ :: _, [] => Or.inr rfl
  | a :: as, b :: bs => by
    rcases Nat.lt_trichotomy a.toNat b.toNat with h | h | h
    · left; simp [charListLe, h]
    · have hba : ¬ b.toNat < a.toNat := by omega
      have hab : ¬ a.toNat < b.toNat := by omega
      rcases charListLe_total as bs with ih | ih
      · left; simp [charListLe, hab, hba, ih]
      · right; simp [charListLe, hab, hba, h.symm, ih]
    · right; simp [charListLe, h]

theorem charListLe_trans : ∀ x y z, charListLe x y = true → charListLe y z = true →
    charListLe x z = true
  | [], _, _, _, _ => rfl
  | _ :: _, [], _, h1, _ => by simp [charListLe] at h1
  | _ :: _, _ :: _, [], _, h2 => by simp [charListLe] at h2
  | a :: as, b :: bs, c :: cs, h1, h2 => by
    by_cases hab : a.toNat < b.toNat <;> by_cases hbc : b.toNat < c.toNat
    · simp [charListLe, show a.toNat < c.toNat by omega]
    · simp only [charListLe, hbc, if_false] at h2
      by_cases hcb : c.toNat < b.toNat
      · simp [hcb] at h2
      · have hbceq : b.toNat = c.toNat := by omega
        simp [charListLe, show a.toNat < c.toNat by omega]
    · simp only [charListLe, hab, if_false] at h1
      by_cases hba : b.toNat < a.toNat
      · simp [hba] at h1
      · have habeq : a.toNat = b.toNat := by omega
        simp [charListLe, show a.toNat < c.toNat by omega]
    · simp only [charListLe, hab, if_false] at h1
      by_cases hba : b.toNat < a.toNat
      · simp [hba] at h1
      · simp only [charListLe, hbc, if_false] at h2
        by_cases hcb : c.toNat < b.toNat
        · simp [hcb] at h2
        · have hac : ¬ a.toNat < c.toNat := by omega
          have hca : ¬ c.toNat < a.toNat := by omega
          simp only [charListLe, hac, if_false, hca]
          simp only [if_neg hba] at h1
          simp only [if_neg hcb] at h2
          exact charListLe_trans as bs cs h1 h2

theorem charListLe_antisymm : ∀ x y, charListLe x y = true → charListLe y x = true →
    x = y
  | [], [], _, _ => rfl
  | [], _ :: _, _, h2 => by simp [charListLe] at h2
  | _ :: _, [], h1, _ => by simp [charListLe] at h1
  | a :: as, b :: bs, h1, h2 => by
    by_cases hab : a.toNat < b.toNat
    · exfalso
      have hba : ¬ b.toNat < a.toNat := by omega
      simp [charListLe, hba, hab] at h2
    · by_cases hba : b.toNat < a.toNat
      · simp [charListLe, hab, hba] at h1
      · have heq : a.toNat = b.toNat := by omega
        have hchar : a = b := Char.ext (UInt32.ext heq)
        simp only [charListLe, hab, if_false, if_neg hab, if_neg hba] at h1
        simp only [charListLe, if_neg (show ¬ b.toNat < a.toNat from hba),
          if_neg (show ¬ a.toNat < b.toNat from hab)] at h2
        rw [hchar, charListLe_antisymm as bs h1 h2]

/-- Python-style `≤` on strings (code-point lexicographic). -/
def strLe (a b : String) : Prop := charListLe a.toList b.toList = true

instance (a b : String) : Decidable (strLe a b) := by
  unfold strLe; infer_instance

instance : IsTotal String strLe := ⟨fun a b => charListLe_total a.toList b.toList⟩

instance : IsTrans String strLe :=
  ⟨fun a b c => charListLe_trans a.toList b.toList c.toList⟩

instance : IsAntisymm String strLe := by
  refine ⟨fun a b h1 h2 => ?_⟩
  have h := charListLe_antisymm a.toList b.toList h1 h2
  cases a; cases b
  exact congrArg String.mk (by simpa [String.toList] using h)

/-- Decidable `≤` on rationals by cross-multiplication (denominators are
positive), avoiding non-reducing gcd normalisation. -/
def ratLeB (a b : ℚ) : Bool := decide (a.num * (b.den : Int) ≤ b.num * (a.den : Int))

/-- Minimum of a list of dates (`MIN(dt)`), `none` on the empty list. -/
def minDateOf (l : List Date) : Option Date :=
  l.foldl (fun acc d => match acc with
    | none => some d
    | some m => some (if Date.ltB d m then d else m)) none

/-- Maximum of a list of dates (`MAX(dt)`), `none` on the empty list. -/
def maxDateOf (l : List Date) : Option Date :=
  l.foldl (fun acc d => match acc with
    | none => some d
    | some m => some (if Date.ltB m d then d else m)) none

theorem mem_dedupByKeyAux {α κ : Type} [DecidableEq κ] (key : α → κ) (a : α) :
    ∀ (l : List α) (seen : List κ), a ∈ dedupByKeyAux key seen l → a ∈ l
  | [], _, h => by simp [dedupByKeyAux] at h
  | x :: xs, seen, h => by
    by_cases hk : key x ∈ seen
    · simp only [dedupByKeyAux, hk] at h
      simp only [decide_eq_true_eq, if_true, if_pos] at h
      exact List.mem_cons_of_mem _ (mem_dedupByKeyAux key a xs seen h)
    · simp [dedupByKeyAux, hk, List.mem_cons] at h
      rcases h with rfl | h
      · exact List.mem_cons_self _ _
      · exact List.mem_cons_of_mem _ (mem_dedupByKeyAux key a xs (key x :: seen) h)

theorem exists_key_dedupByKeyAux {α κ : Type} [DecidableEq κ] (key : α → κ) (a : α) :
    ∀ (l : List α) (seen : List κ), a ∈ l → key a ∉ seen →
      ∃ b ∈ dedupByKeyAux key seen l, key b = key a
  | [], _, ha, _ => by simp at ha
  | x :: xs, seen, ha, hs => by
    rcases List.mem_cons.mp ha with rfl | ha'
    · by_cases hk : key a ∈ seen
      · exact absurd hk hs
      · exact ⟨a, by simp [dedupByKeyAux, hk], rfl⟩
    · by_cases hk : key x ∈ seen
      · have := exists_key_dedupByKeyAux key a xs seen ha' hs
        simpa [dedupByKeyAux, hk] using this
      · by_cases hka : key a = key x
        · exact ⟨x, by simp [dedupByKeyAux, hk], hka.symm⟩
        · obtain ⟨b, hb, hbk⟩ :=
            exists_key_dedupByKeyAux key a xs (key x :: seen) ha' (by simp [hs, hka])
          exact ⟨b, by simp [dedupByKeyAux, hk]; right; exact hb, hbk⟩

theorem nodup_keys_dedupByKeyAux {α κ : Type} [DecidableEq κ] (key : α → κ) :
    ∀ (l : List α) (seen : List κ),
      ((dedupByKeyAux key seen l).map key).Nodup ∧
        ∀ k ∈ seen, k ∉ (dedupByKeyAux key seen l).map key
  | [], seen => by simp [dedupByKeyAux]
  | x :: xs, seen => by
    by_cases hk : key x ∈ seen
    · simpa [dedupByKeyAux, hk] using nodup_keys_dedupByKeyAux key xs seen
    · have ih := nodup_keys_dedupByKeyAux key xs (key x :: seen)
      constructor
      · simp only [dedupByKeyAux, hk]
        simp only [decide_eq_true_eq, List.map_cons, List.nodup_cons, if_neg, if_false]
        exact ⟨ih.2 (key x) (by simp), ih.1⟩
      · intro k hkseen
        simp only [dedupByKeyAux, hk]
        simp only [decide_eq_true_eq, List.map_cons, List.mem_cons, not_or, if_neg,
          if_false]
        refine ⟨?_, ih.2 k (by simp [hkseen])⟩
        rintro rfl
        exact hk hkseen

theorem mem_dedupByKey {α κ : Type} [DecidableEq κ] (key : α → κ) (l : List α) (a : α) :
    a ∈ dedupByKey key l → a ∈ l :=
  mem_dedupByKeyAux key a l []

theorem mem_of_mem_dedupByKey_rev {α κ : Type} [DecidableEq κ] (key : α → κ)
    (l : List α) (a : α) (h : a ∈ l) : ∃ b ∈ dedupByKey key l, key b = key a :=
  exists_key_dedupByKeyAux key a l [] h (by simp)

theorem nodup_keys_dedupByKey {α κ : Type} [DecidableEq κ] (key : α → κ) (l : List α) :
    ((dedupByKey key l).map key).Nodup :=
  (nodup_keys_dedupByKeyAux key l []).1

theorem mem_uniqueFirst {α : Type} [DecidableEq α] (l : List α) (a : α) :
    a ∈ uniqueFirst l ↔ a ∈ l := by
  constructor
  · exact mem_dedupByKey id l a
  · intro h
    obtain ⟨b, hb, hbk⟩ := mem_of_mem_dedupByKey_rev id l a h
    have : b = a := hbk
    exact this ▸ hb

theorem nodup_uniqueFirst {α : Type} [DecidableEq α] (l : List α) :
    (uniqueFirst l).Nodup := by
  have h := nodup_keys_dedupByKey (α := α) id l
  simpa [uniqueFirst] using h

/-! ## Data model (the five source entities plus the materialized subset)

Source dataset per §3 of the spec and the SQL in services/sql_core.py:
Invoice, InvoiceLine, Track, Genre, Artist (via Album). -/

structure Invoice where
  invoiceId : Int
  customerId : Int
  invoiceDate : Date
  billingCountry : String
deriving DecidableEq, Repr

structure InvoiceLine where
  invoiceId : Int
  trackId : Int
  quantity : Int
  unitPrice : ℚ
deriving DecidableEq, Repr

structure Track where
  trackId : Int
  genreId : Int
  albumId : Int
deriving DecidableEq, Repr

structure Genre where
  genreId : Int
  name : String
deriving DecidableEq, Repr

structure Album where
  albumId : Int
  artistId : Int
deriving DecidableEq, Repr

structure Artist where
  artistId : Int
  name : String
deriving DecidableEq, Repr

/-- The read-only source database. -/
structure Db where
  invoices : List Invoice
  invoiceLines : List InvoiceLine
  tracks : List Track
  genres : List Genre
  albums : List Album
  artists : List Artist
deriving Repr

/-- A row of the materialized working table `filtered_invoices`:
(CustomerId, dt, InvoiceId), as selected in get_events_shared. -/
structure FiRow where
  customerId : Int
  dt : Date
  invoiceId : Int
deriving DecidableEq, Repr

/-! ## services/sql_core.py -/

/-- A row of the Invoice→InvoiceLine→Track→Album→Artist→Genre join that
get_events_shared's WHERE fragments are evaluated against. -/
structure JoinRow where
  i : Invoice
  il : InvoiceLine
  t : Track
  al : Album
  ar : Artist
  g : Genre
deriving DecidableEq, Repr

/-- The join chain in get_events_shared's SELECT (before WHERE). -/
def eventsJoin (db : Db) : List JoinRow :=
  db.invoices.flatMap fun i =>
    (db.invoiceLines.filter fun il => decide (il.invoiceId = i.invoiceId)).flatMap fun il =>
      (db.tracks.filter fun t => decide (t.trackId = il.trackId)).flatMap fun t =>
        (db.albums.filter fun al => decide (al.albumId = t.albumId)).flatMap fun al =>
          (db.artists.filter fun ar => decide (ar.artistId = al.artistId)).flatMap fun ar =>
            (db.genres.filter fun g => decide (g.genreId = t.genreId)).map fun g =>
              ⟨i, il, t, al, ar, g⟩

/-- hash_invoice_ids: `sorted, unique InvoiceIds` serialised and digested.
The InvoiceId column may contain NULLs (`dropna`), hence `Option Int`.
The MD5 digest itself is an external pure function of the serialised
string and is passed in as `md5`; every claim about this function
concerns only the canonicalisation, never the digest internals. -/
def hash_invoice_ids (md5 : String → String) (invoiceIdCol : List (Option Int)) : String :=
  let invoice_ids := uniqueFirst (invoiceIdCol.filterMap id)
  let sorted_ids := List.insertionSort strLe (invoice_ids.map toString)
  let serialized := String.intercalate "," sorted_ids
  md5 serialized

/-- Comparator used by `sort_values(["CustomerId", "dt"])`. -/
def fiOrder (a b : FiRow) : Prop :=
  a.customerId < b.customerId ∨ (a.customerId = b.customerId ∧ Date.le a.dt b.dt)

instance (a b : FiRow) : Decidable (fiOrder a b) := by
  unfold fiOrder; infer_instance

/-- The deduplicated, sorted subset produced by get_events_shared from
the join under the conjunction of the WHERE fragments:
`drop_duplicates(subset=["CustomerId", "InvoiceId", "dt"])` then
`sort_values(["CustomerId", "dt"])` (ties between rows with equal
customer and date are broken by input position here; no downstream
computation depends on that order). -/
def eventsCleaned (db : Db) (whereClauses : List (JoinRow → Bool)) : List FiRow :=
  let df := ((eventsJoin db).filter fun r => whereClauses.all fun p => p r).map
    fun r => FiRow.mk r.i.customerId r.i.invoiceDate r.i.invoiceId
  let df_cleaned := dedupByKey (fun r => (r.customerId, r.invoiceId, r.dt)) df
  List.insertionSort fiOrder df_cleaned

/-- Connection-level mutable state: whether (and with which rows) the
temp table `filtered_invoices` exists. -/
structure ConnState where
  filteredInvoices : Option (List FiRow)
deriving DecidableEq, Repr

/-- get_events_shared: queries, dedups and sorts the subset, fingerprints
its InvoiceId set, and persists it as `filtered_invoices` unless the
fingerprint matches `previous_hash` and the table already exists. -/
def get_events_shared (md5 : String → String) (db : Db)
    (whereClauses : List (JoinRow → Bool)) (previousHash : Option String)
    (st : ConnState) : Option (List FiRow) × String × ConnState :=
  let df_cleaned := eventsCleaned db whereClauses
  let new_hash := hash_invoice_ids md5 (df_cleaned.map fun r => some r.invoiceId)
  if previousHash = some new_hash then
    if st.filteredInvoices.isSome then
      (none, new_hash, st)
    else
      (some df_cleaned, new_hash, ⟨some df_cleaned⟩)
  else
    (some df_cleaned, new_hash, ⟨some df_cleaned⟩)

/-- The fingerprint of the materialized subset for a given predicate set. -/
def subsetFingerprint (md5 : String → String) (db : Db)
    (whereClauses : List (JoinRow → Bool)) : String :=
  hash_invoice_ids md5 ((eventsCleaned db whereClauses).map fun r => some r.invoiceId)

theorem ges_hash (md5 : String → String) (db : Db) (wc : List (JoinRow → Bool))
    (prev : Option String) (st : ConnState) :
    (get_events_shared md5 db wc prev st).2.1 = subsetFingerprint md5 db wc := by
  unfold get_events_shared subsetFingerprint
  by_cases h1 : prev = some (hash_invoice_ids md5
      ((eventsCleaned db wc).map fun r => some r.invoiceId))
  · by_cases h2 : st.filteredInvoices.isSome <;> simp [h1, h2]
  · simp [h1]

theorem ges_state_some (md5 : String → String) (db : Db) (wc : List (JoinRow → Bool))
    (prev : Option String) (st : ConnState) :
    ((get_events_shared md5 db wc prev st).2.2).filteredInvoices.isSome := by
  unfold get_events_shared
  by_cases h1 : prev = some (hash_invoice_ids md5
      ((eventsCleaned db wc).map fun r => some r.invoiceId))
  · by_cases h2 : st.filteredInvoices.isSome <;> simp [h1, h2]
  · simp [h1]

/-- **C4.** The materializer: whenever the fingerprint of the freshly
queried, deduplicated subset equals `previous_hash` and the persisted
working table already exists, get_events_shared returns
`(None, new_fingerprint)` and leaves the working table unchanged; in
every other case it (re)persists the subset and returns
`(rows, new_fingerprint)`.  Consequently a second call with the same
predicate clauses, passing the first call's fingerprint, returns
`(None, fp)` and leaves the first call's table untouched. -/
theorem get_events_shared_materializer (md5 : String → String) (db : Db)
    (wc : List (JoinRow → Bool)) (prev : Option String) (st : ConnState) :
    (get_events_shared md5 db wc prev st =
      (if prev = some (subsetFingerprint md5 db wc) ∧ st.filteredInvoices.isSome then
        (none, subsetFingerprint md5 db wc, st)
      else
        (some (eventsCleaned db wc), subsetFingerprint md5 db wc,
          ⟨some (eventsCleaned db wc)⟩)))
    ∧ (get_events_shared md5 db wc (some (get_events_shared md5 db wc prev st).2.1)
        (get_events_shared md5 db wc prev st).2.2
      = (none, (get_events_shared md5 db wc prev st).2.1,
          (get_events_shared md5 db wc prev st).2.2)) := by
  constructor
  · unfold get_events_shared subsetFingerprint
    by_cases h1 : prev = some (hash_invoice_ids md5
        ((eventsCleaned db wc).map fun r => some r.invoiceId))
    · by_cases h2 : st.filteredInvoices.isSome <;> simp [h1, h2]
    · simp [h1]
  · have hh := ges_hash md5 db wc prev st
    have hs := ges_state_some md5 db wc prev st
    conv_lhs => rw [get_events_shared]
    rw [hh]
    simp only [subsetFingerprint, if_pos rfl, hs, if_pos]

/-- **C5.** hash_invoice_ids is invariant under permutation of the rows
and under duplicate entries: two InvoiceId columns with equal sets of
non-null ids hash identically, for any digest function. -/
theorem hash_invoice_ids_set_invariant (md5 : String → String)
    (c₁ c₂ : List (Option Int))
    (h : (c₁.filterMap id).toFinset = (c₂.filterMap id).toFinset) :
    hash_invoice_ids md5 c₁ = hash_invoice_ids md5 c₂ := by
  unfold hash_invoice_ids
  have hn₁ := nodup_uniqueFirst (c₁.filterMap id)
  have hn₂ := nodup_uniqueFirst (c₂.filterMap id)
  have hts : (uniqueFirst (c₁.filterMap id)).toFinset
      = (uniqueFirst (c₂.filterMap id)).toFinset := by
    apply Finset.ext
    intro a
    have hmem := Finset.ext_iff.mp h a
    simp only [List.mem_toFinset, mem_uniqueFirst]
    simpa only [List.mem_toFinset] using hmem
  have hperm : List.Perm (uniqueFirst (c₁.filterMap id)) (uniqueFirst (c₂.filterMap id)) :=
    List.perm_of_nodup_nodup_toFinset_eq hn₁ hn₂ hts
  have hmap : List.Perm ((uniqueFirst (c₁.filterMap id)).map toString)
      ((uniqueFirst (c₂.filterMap id)).map toString) := hperm.map _
  have hsorted : List.insertionSort strLe ((uniqueFirst (c₁.filterMap id)).map toString)
      = List.insertionSort strLe ((uniqueFirst (c₂.filterMap id)).map toString) := by
    exact List.eq_of_perm_of_sorted
      ((List.perm_insertionSort _ _).trans
        (hmap.trans (List.perm_insertionSort _ _).symm))
      (List.sorted_insertionSort _ _) (List.sorted_insertionSort _ _)
  simp only []
  rw [hsorted]

/-- Witness for C5 at a concrete input: `[3, NULL, 1, 2]` and
`[2, 1, 2, 3]` have the same set of non-null ids and equal hashes. -/
theorem hash_invoice_ids_set_invariant_witness :
    (([some 3, none, some 1, some 2] : List (Option Int)).filterMap id).toFinset
      = (([some 2, some 1, some 2, some 3] : List (Option Int)).filterMap id).toFinset
    ∧ hash_invoice_ids (fun s => s) [some 3, none, some 1, some 2]
      = hash_invoice_ids (fun s => s) [some 2, some 1, some 2, some 3] :=
  ⟨by decide, hash_invoice_ids_set_invariant (fun s => s) _ _ (by decide)⟩

/-! ## services/display_utils.py

Python/NumPy floats are modelled by `PyFloat`: an exact rational plus the
special values nan, inf and minus-inf.  Exact rational arithmetic replaces binary
floating point; `round` models round-to-nearest (Python's banker's
rounding differs only on exact midpoints, which no claim touches). -/

inductive PyFloat where
  | val (q : ℚ)
  | nan
  | inf
  | ninf
deriving DecidableEq, Repr

/-- NumPy true division of (possibly numpy-typed) integers: division by
zero emits a RuntimeWarning and produces nan (0/0) or ±inf — it does not
raise. -/
def npDiv (a b : Int) : PyFloat :=
  if b = 0 then (if a = 0 then .nan else if a > 0 then .inf else .ninf)
  else .val ((a : ℚ) / (b : ℚ))

/-- Multiplication by 100 (`value * 100` in the percent branch). -/
def PyFloat.mul100 : PyFloat → PyFloat
  | .val q => .val (q * 100)
  | .nan => .nan
  | .inf => .inf
  | .ninf => .ninf

/-- A value as accepted by format_kpi_value: None, int, float or str. -/
inductive PyVal where
  | pnone
  | pint (n : Int)
  | pfloat (x : PyFloat)
  | pstr (s : String)
deriving DecidableEq, Repr

/-- `float(value)` for the numeric constructors. -/
def PyVal.toF : PyVal → PyFloat
  | .pint n => .val (n : ℚ)
  | .pfloat x => x
  | _ => .nan

/-- `str(value)` (only ever applied to strings in the pipeline). -/
def PyVal.pyStr : PyVal → String
  | .pstr s => s
  | .pint n => toString n
  | .pfloat _ => "nan"
  | .pnone => "None"

/-- Zero-left-pad a natural to `dp` digits. -/
def padN (dp n : Nat) : String :=
  let s := toString n
  String.mk (List.replicate (dp - s.length) '0') ++ s

/-- Chunks of three characters, consumed from the front. -/
def chunk3 : List Char → List (List Char)
  | [] => []
  | a :: b :: c :: rest@(_ :: _) => [a, b, c] :: chunk3 rest
  | l => [l]

/-- Locale thousands grouping of a natural number's digits (the process
locale the repo's tests run under groups with commas). -/
def groupNat (n : Nat) : String :=
  let revChunks := chunk3 (toString n).toList.reverse
  String.mk (List.intercalate [','] (revChunks.map List.reverse).reverse)

/-- `locale.format_string("%d", n, grouping=True)`. -/
def groupInt (n : Int) : String :=
  if n < 0 then "-" ++ groupNat n.natAbs else groupNat n.natAbs

/-- `round(q, dp)` followed by `"%.{dp}f"` rendering, optionally with
locale grouping of the integer part. -/
def fixedN (grouping : Bool) (dp : Nat) (q : ℚ) : String :=
  let scale : Int := (10 : Int) ^ dp
  let c : Int := round (q * (scale : ℚ))
  let sign := if c < 0 then "-" else ""
  let ip := c.natAbs / scale.natAbs
  let fp := c.natAbs % scale.natAbs
  sign ++ (if grouping then groupNat ip else toString ip)
    ++ (if dp = 0 then "" else "." ++ padN dp fp)

/-- `"%.{dp}f"` of a Python float: nan and infinities render as text. -/
def PyFloat.fmt (grouping : Bool) (dp : Nat) : PyFloat → String
  | .val q => fixedN grouping dp q
  | .nan => "nan"
  | .inf => "inf"
  | .ninf => "-inf"

/-- `float.is_integer()`. -/
def PyFloat.isInteger : PyFloat → Bool
  | .val q => q.den = 1
  | _ => false

/-- `int(float_val)` for an integral float. -/
def PyFloat.toInt : PyFloat → Int
  | .val q => q.num / (q.den : Int)
  | _ => 0

/-- The call `locale.log10(accuracy)` in format_kpi_value: Python's
`locale` module defines no attribute `log10` (the function lives in
`math`), so the lookup raises AttributeError for every argument. -/
def locale_log10 (_ : ℚ) : Except String ℚ :=
  Except.error "AttributeError: module locale has no attribute log10"

/-- `decimal_places = max(0, -int(round(locale.log10(accuracy))))` with
fallback 2 on any exception. -/
def decimal_places_of (accuracy : ℚ) : Nat :=
  match locale_log10 accuracy with
  | Except.ok v => (max 0 (-(round v))).toNat
  | Except.error _ => 2

/-- ASCII uppercase of one character (by code point). -/
def upperChar (c : Char) : Char :=
  if 97 ≤ c.toNat ∧ c.toNat ≤ 122 then Char.ofNat (c.toNat - 32) else c

/-- ASCII lowercase of one character (by code point). -/
def lowerChar (c : Char) : Char :=
  if 65 ≤ c.toNat ∧ c.toNat ≤ 90 then Char.ofNat (c.toNat + 32) else c

/-- `str.upper()` (ASCII, as used on ISO2 codes). -/
def strUpper (s : String) : String := String.mk (s.toList.map upperChar)

/-- `str.lower()` (ASCII, as used on group names). -/
def strLower (s : String) : String := String.mk (s.toList.map lowerChar)

/-- flagify_country: ISO2 via the country_converter lookup `coco`
(an external pure table, passed in as a function `input → target →
result`, returning "not found" on failure), then regional-indicator
emoji, plus an optional label. -/
def flagify_country (coco : String → String → String) (input : String)
    (label : Bool) (label_type : String) : String :=
  let iso2 := coco input "ISO2"
  if iso2 = "not found" ∨ iso2.length ≠ 2 then "NA"
  else
    let flag := String.mk ((strUpper iso2).toList.map fun c => Char.ofNat (127397 + c.toNat))
    if !label then flag
    else
      let labelText := coco iso2 (if label_type = "name" then "name_short" else "ISO3")
      if labelText ≠ "" ∧ labelText ≠ "not found" then flag ++ " " ++ labelText else flag

/-- format_kpi_value.  Faithful translation including its two raising
paths (unsupported value_type → ValueError; a non-None string reaching
`math.isnan` → TypeError) and its broken NaN guard: `not
(isinstance(value, Number) or math.isnan(value))` short-circuits on any
float — including nan/inf — so those pass through to the formatting
branches instead of returning "NA". -/
def format_kpi_value (coco : String → String → String) (value : PyVal)
    (value_type : String) (accuracy : ℚ) (pfx : String) (label : Bool)
    (label_type : String) : Except String String :=
  if value_type ∉ (["dollar", "percent", "number", "float", "country"] : List String) then
    Except.error ("ValueError: Unsupported value_type: " ++ value_type)
  else if value_type ≠ "country" then
    match value with
    | .pnone => Except.ok "NA"
    | .pstr _ => Except.error "TypeError: must be real number, not str"
    | v =>
      let dp := decimal_places_of accuracy
      if value_type = "percent" then
        Except.ok ((PyFloat.mul100 v.toF).fmt false dp ++ "%")
      else if value_type = "dollar" then
        Except.ok (pfx ++ v.toF.fmt true dp)
      else if value_type = "float" then
        Except.ok (v.toF.fmt true dp)
      else -- "number"
        if v.toF.isInteger then
          Except.ok (groupInt v.toF.toInt)
        else
          Except.ok (v.toF.fmt true dp)
  else
    match value with
    | .pnone => Except.ok "NA"
    | v => Except.ok (flagify_country coco v.pyStr label label_type)

/-- Total call wrapper used by the pipeline embeddings: all pipeline call
sites pass a valid value_type and a non-string value, so the error branch
is unreachable there; an error would surface as its message string. -/
def fmtCall (coco : String → String → String) (value : PyVal)
    (value_type : String) (accuracy : ℚ) : String :=
  match format_kpi_value coco value value_type accuracy "$" true "name" with
  | Except.ok s => s
  | Except.error e => e

/-- **C10.** The decimal-place derivation calls `locale.log10`, which
does not exist, so the handler always applies the fallback of 2 and the
`accuracy` argument never affects the output of format_kpi_value; in
particular percent/dollar/float values are rendered with exactly 2
decimal places. -/
theorem format_kpi_value_accuracy_ignored (coco : String → String → String)
    (value : PyVal) (value_type : String) (accuracy accuracy' : ℚ)
    (pfx : String) (label : Bool) (label_type : String) :
    locale_log10 accuracy
        = Except.error "AttributeError: module locale has no attribute log10"
    ∧ decimal_places_of accuracy = 2
    ∧ format_kpi_value coco value value_type accuracy pfx label label_type
        = format_kpi_value coco value value_type accuracy' pfx label label_type
    ∧ (∀ q : ℚ, format_kpi_value coco (.pfloat (.val q)) "percent" accuracy pfx label label_type
        = Except.ok (fixedN false 2 (q * 100) ++ "%"))
    ∧ (∀ q : ℚ, format_kpi_value coco (.pfloat (.val q)) "dollar" accuracy pfx label label_type
        = Except.ok (pfx ++ fixedN true 2 q))
    ∧ (∀ q : ℚ, format_kpi_value coco (.pfloat (.val q)) "float" accuracy pfx label label_type
        = Except.ok (fixedN true 2 q)) :=
  ⟨rfl, rfl, rfl, fun _ => rfl, fun _ => rfl, fun _ => rfl⟩

/-! ## KPI bundle values

Python's nested dict/list/scalar KPI payloads are modelled by `KVal`;
`make_serializable` (shared.py) turns DataFrames into lists of records,
which the embeddings produce directly as `.arr` of `.dict`. -/

inductive KVal where
  | s (v : String)
  | q (v : ℚ)
  | n (v : Int)
  | f (v : PyFloat)
  | arr (rows : List KVal)
  | dict (entries : List (String × KVal))

/-- Keys of a dict-shaped value, in insertion order. -/
def KVal.keys : KVal → List String
  | .dict es => es.map Prod.fst
  | _ => []

/-- Python dict lookup. -/
def dlookup (entries : List (String × KVal)) (k : String) : Option KVal :=
  (entries.find? fun p => p.1 == k).map Prod.snd

/-- Python dict insertion: overwrite in place if the key exists,
otherwise append. -/
def dinsert (entries : List (String × KVal)) (k : String) (v : KVal) :
    List (String × KVal) :=
  if entries.any fun p => p.1 == k then
    entries.map fun p => if p.1 == k then (k, v) else p
  else entries ++ [(k, v)]

/-! ## services/kpis/core.py -/

/-- A row of the metrics query's join in get_subset_core_kpis:
date_filtered subset row, LEFT JOINed against customer_lifespan,
InvoiceLine, Track, Album, Artist and Invoice. -/
structure CoreJoined where
  e : FiRow
  cl : Option Date
  il : Option InvoiceLine
  t : Option Track
  al : Option Album
  ar : Option Artist
  inv : Option Invoice
deriving DecidableEq, Repr

/-- customer_lifespan CTE: each customer's all-time first purchase date,
computed over the ENTIRE Invoice table (not the filtered subset). -/
def customer_lifespan (db : Db) : List (Int × Date) :=
  (uniqueFirst (db.invoices.map (·.customerId))).filterMap fun c =>
    (minDateOf ((db.invoices.filter fun i => decide (i.customerId = c)).map
      (·.invoiceDate))).map fun d => (c, d)

/-- The metrics join of get_subset_core_kpis over the date-bounded subset. -/
def coreRows (db : Db) (fi : List FiRow) (start end_ : Date) : List CoreJoined :=
  let date_filtered := fi.filter fun e => e.dt.betweenB start end_
  date_filtered.flatMap fun e =>
    (leftJoin1 e ((customer_lifespan db).filter fun p =>
        decide (p.1 = e.customerId))).flatMap fun ecl =>
      (leftJoin1 ecl (db.invoiceLines.filter fun il =>
          decide (il.invoiceId = e.invoiceId))).flatMap fun eil =>
        (leftJoin1 eil (match eil.2 with
          | some il => db.tracks.filter fun t => decide (t.trackId = il.trackId)
          | none => [])).flatMap fun et =>
          (leftJoin1 et (match et.2 with
            | some t => db.albums.filter fun al => decide (al.albumId = t.albumId)
            | none => [])).flatMap fun eal =>
            (leftJoin1 eal (match eal.2 with
              | some al => db.artists.filter fun ar => decide (ar.artistId = al.artistId)
              | none => [])).flatMap fun ear =>
              (leftJoin1 ear (db.invoices.filter fun i =>
                  decide (i.invoiceId = e.invoiceId))).map fun einv =>
                { e := e
                  cl := ecl.2.map Prod.snd
                  il := eil.2
                  t := et.2
                  al := eal.2
                  ar := ear.2
                  inv := einv.2 }

/-- `ROUND(x, 2)` (SQL) on exact rationals. -/
def round2 (q : ℚ) : ℚ := (round (q * 100) : ℚ) / 100

/-- get_subset_core_kpis: snaps the date range to whole calendar months,
returns the empty dict when zero subset rows fall in the snapped range
(the "no data" sentinel), else the formatted scalar-KPI dict. -/
def get_subset_core_kpis (coco : String → String → String) (db : Db)
    (fi : List FiRow) (dateRange : Date × Date) : List (String × KVal) :=
  let start := dateRange.1.firstOfMonth
  let end_ := dateRange.2.lastOfMonth
  let num_months : Int := Date.monthDiff start end_ + 1
  let num_rows := (fi.filter fun e => e.dt.betweenB start end_).length
  if num_rows = 0 then []
  else
    let rows := coreRows db fi start end_
    let purchases : Int := countDistinct (rows.map (·.e.invoiceId))
    let customers : Int := countDistinct (rows.map (·.e.customerId))
    let new_customers : Int := countDistinct (rows.filterMap fun r =>
      match r.cl with
      | some fp => if fp.betweenB start end_ then some r.e.customerId else none
      | none => none)
    let tracks_sold : Int := ((rows.filterMap (·.il)).map (·.quantity)).sum
    let revenue : ℚ := round2 (((rows.filterMap (·.il)).map fun il =>
      (il.quantity : ℚ) * il.unitPrice).sum)
    let num_genres : Int := countDistinct (rows.filterMap fun r => r.t.map (·.genreId))
    let num_artists : Int := countDistinct (rows.filterMap fun r => r.ar.map (·.artistId))
    let num_countries : Int := countDistinct (rows.filterMap fun r =>
      r.inv.map (·.billingCountry))
    [("purchases_num", .s (fmtCall coco (.pint purchases) "number" 1)),
     ("cust_num", .s (fmtCall coco (.pint customers) "number" 1)),
     ("cust_num_new", .s (fmtCall coco (.pint new_customers) "number" 1)),
     ("cust_per_new", .s (fmtCall coco
        (if customers > 0 then .pfloat (.val ((new_customers : ℚ) / (customers : ℚ)))
         else .pnone) "percent" (1/100))),
     ("tracks_sold_num", .s (fmtCall coco (.pint tracks_sold) "number" 1)),
     ("revenue_total", .q revenue),
     ("revenue_total_fmt", .s (fmtCall coco (.pfloat (.val revenue)) "dollar" (1/100))),
     ("revenue_per_month", .s (fmtCall coco
        (if num_months > 0 then .pfloat (.val (revenue / (num_months : ℚ)))
         else .pnone) "dollar" (1/100))),
     ("revenue_per_cust", .s (fmtCall coco
        (if customers > 0 then .pfloat (.val (revenue / (customers : ℚ)))
         else .pnone) "dollar" (1/100))),
     ("revenue_per_purchase", .s (fmtCall coco
        (if purchases > 0 then .pfloat (.val (revenue / (purchases : ℚ)))
         else .pnone) "dollar" (1/100))),
     ("genre_num", .s (fmtCall coco (.pint num_genres) "number" 1)),
     ("artist_num", .s (fmtCall coco (.pint num_artists) "number" 1)),
     ("country_num", .s (fmtCall coco (.pint num_countries) "number" 1))]

theorem get_subset_core_kpis_empty_sentinel (coco : String → String → String)
    (db : Db) (fi : List FiRow) (dateRange : Date × Date)
    (h : (fi.filter fun e =>
      e.dt.betweenB dateRange.1.firstOfMonth dateRange.2.lastOfMonth).length = 0) :
    get_subset_core_kpis coco db fi dateRange = [] := by
  unfold get_subset_core_kpis
  simp [h]

/-! ## services/kpis/group.py -/

/-- A row of the `base` CTE in get_group_kpis_full. -/
structure GroupBase where
  customerId : Int
  invoiceDate : Date
  invoiceId : Int
  trackId : Int
  quantity : Int
  unitPrice : ℚ
  groupVal : String
deriving DecidableEq, Repr

/-- The group-specific join tail producing `group_val` for one invoice
line (Genre: Track→Genre; Artist: Track→Album→Artist; BillingCountry:
the invoice's country, no extra joins).  The LEFT JOINs against
genre_catalog / artist_catalog select no columns and, the catalog tables
being grouped on their key, neither filter nor duplicate rows; they are
therefore not materialised here. -/
def groupJoinVals (db : Db) (group_var : String) (il : InvoiceLine)
    (i : Invoice) : List String :=
  if group_var = "Genre" then
    (db.tracks.filter fun t => decide (t.trackId = il.trackId)).flatMap fun t =>
      (db.genres.filter fun g => decide (g.genreId = t.genreId)).map (·.name)
  else if group_var = "Artist" then
    (db.tracks.filter fun t => decide (t.trackId = il.trackId)).flatMap fun t =>
      (db.albums.filter fun al => decide (al.albumId = t.albumId)).flatMap fun al =>
        (db.artists.filter fun ar => decide (ar.artistId = al.artistId)).map (·.name)
  else
    [i.billingCountry]

/-- The `base` CTE: filtered_invoices joined to Invoice (month-snapped
date window when a range is given), InvoiceLine and the group joins. -/
def groupBase (db : Db) (fi : List FiRow) (group_var : String)
    (dateRange : Option (Date × Date)) : List GroupBase :=
  fi.flatMap fun e =>
    (db.invoices.filter fun i =>
      decide (i.invoiceId = e.invoiceId) &&
      (match dateRange with
       | some dr => i.invoiceDate.betweenB dr.1.firstOfMonth dr.2.lastOfMonth
       | none => true)).flatMap fun i =>
      (db.invoiceLines.filter fun il => decide (il.invoiceId = i.invoiceId)).flatMap fun il =>
        (groupJoinVals db group_var il i).map fun gv =>
          { customerId := e.customerId
            invoiceDate := i.invoiceDate
            invoiceId := i.invoiceId
            trackId := il.trackId
            quantity := il.quantity
            unitPrice := il.unitPrice
            groupVal := gv }

/-- first_purchases CTE: each customer's earliest invoice date **within
the base rows** (i.e. within the filtered, date-bounded subset — not
their all-time first purchase). -/
def firstPurchases (base : List GroupBase) : List (Int × Date) :=
  (uniqueFirst (base.map (·.customerId))).filterMap fun c =>
    (minDateOf ((base.filter fun r => decide (r.customerId = c)).map
      (·.invoiceDate))).map fun d => (c, d)

/-- One output row of get_group_kpis_full. -/
structure GroupKpiRow where
  group_val : String
  num_customers : Nat
  num_purchases : Nat
  tracks_sold : Int
  revenue : ℚ
  first_time_customers : Nat
deriving DecidableEq, Repr

/-- get_group_kpis_full: full-period KPIs per group value, ordered by
group label. -/
def get_group_kpis_full (db : Db) (fi : List FiRow) (group_var : String)
    (dateRange : Option (Date × Date)) : List GroupKpiRow :=
  let base := groupBase db fi group_var dateRange
  let fp := firstPurchases base
  let keys := List.insertionSort strLe (uniqueFirst (base.map (·.groupVal)))
  keys.map fun gv =>
    let rows := base.filter fun r => decide (r.groupVal = gv)
    { group_val := gv
      num_customers := countDistinct (rows.map (·.customerId))
      num_purchases := countDistinct (rows.map (·.invoiceId))
      tracks_sold := (rows.map (·.quantity)).sum
      revenue := (rows.map fun r => (r.quantity : ℚ) * r.unitPrice).sum
      first_time_customers := countDistinct (rows.filterMap fun r =>
        match (fp.find? fun p => p.1 == r.customerId).map Prod.snd with
        | some d => if r.invoiceDate = d then some r.customerId else none
        | none => none) }

/-- Modelled from the claim (§4.4/§4.3 of the spec): the per-group
first-time-customer count under the CORE-metrics semantics — customers
with a row in this group's (date-bounded) base whose GLOBAL, all-time,
unfiltered first purchase (minimum over the whole Invoice table) falls
inside the month-snapped date window. -/
def first_time_customers_alltime (db : Db) (fi : List FiRow)
    (group_var : String) (dateRange : Date × Date) (gv : String) : Nat :=
  let base := (groupBase db fi group_var (some dateRange)).filter fun r =>
    decide (r.groupVal = gv)
  countDistinct (base.filterMap fun r =>
    match ((customer_lifespan db).find? fun p => p.1 == r.customerId).map Prod.snd with
    | some d =>
      if d.betweenB dateRange.1.firstOfMonth dateRange.2.lastOfMonth then
        some r.customerId
      else none
    | none => none)

/-- Concrete database for the group first-time-customer counterexample:
one customer with a January Rock purchase and a February Jazz purchase. -/
def dbG : Db :=
  { invoices := [⟨1, 1, ⟨2020, 1, 1⟩, "USA"⟩, ⟨2, 1, ⟨2020, 2, 1⟩, "USA"⟩]
    invoiceLines := [⟨1, 1, 1, 99/100⟩, ⟨2, 2, 1, 99/100⟩]
    tracks := [⟨1, 1, 1⟩, ⟨2, 2, 1⟩]
    genres := [⟨1, "Rock"⟩, ⟨2, "Jazz"⟩]
    albums := [⟨1, 1⟩]
    artists := [⟨1, "A"⟩] }

/-- Unfiltered materialized subset of `dbG`. -/
def fiG : List FiRow := [⟨1, ⟨2020, 1, 1⟩, 1⟩, ⟨1, ⟨2020, 2, 1⟩, 2⟩]

/-- Date range covering both purchases of `dbG`. -/
def drG : Date × Date := (⟨2020, 1, 1⟩, ⟨2020, 2, 1⟩)

/-- **C7 counterexample.** In `dbG` the customer's global first purchase
(2020-01-01) falls inside the window, so under the claimed all-time
semantics the Jazz genre would count one first-time customer; the code
counts zero, because it computes first purchases within the filtered
subset and compares per-group row dates against that date. -/
theorem get_group_kpis_full_first_time_counterexample :
    ((get_group_kpis_full dbG fiG "Genre" (some drG)).find? fun r =>
        r.group_val == "Jazz").map (·.first_time_customers) = some 0
    ∧ first_time_customers_alltime dbG fiG "Genre" drG "Jazz" = 1
    ∧ (0 : Nat) ≠ 1 := by
  refine ⟨?_, ?_, by decide⟩ <;> decide

theorem countDistinct_eq_card {α : Type} [DecidableEq α] (l : List α) :
    countDistinct l = l.toFinset.card := by
  have hnodup := nodup_uniqueFirst l
  have hts : (uniqueFirst l).toFinset = l.toFinset :=
    Finset.ext fun a => by simp [List.mem_toFinset, mem_uniqueFirst]
  calc countDistinct l = (uniqueFirst l).length := rfl
    _ = (uniqueFirst l).toFinset.card := (List.toFinset_card_of_nodup hnodup).symm
    _ = l.toFinset.card := by rw [hts]

theorem find_filterMap_key {κ β : Type} [DecidableEq κ] (g : κ → Option β) (c : κ) :
    ∀ lst : List κ,
      ((lst.filterMap fun k => (g k).map fun b => (k, b)).find? fun p =>
        p.1 == c).map Prod.snd = if c ∈ lst then g c else none
  | [] => by simp
  | k :: ks => by
    rw [List.filterMap_cons]
    by_cases hkc : k = c
    · subst hkc
      cases hgk : g k with
      | none =>
        simp only [hgk, Option.map_none']
        rw [find_filterMap_key g k ks]
        by_cases hmem : k ∈ ks <;> simp [hmem, hgk]
      | some b =>
        simp only [hgk, Option.map_some']
        rw [List.find?_cons_of_pos _ (by simp)]
        simp
    · cases hgk : g k with
      | none =>
        simp only [hgk, Option.map_none']
        rw [find_filterMap_key g c ks]
        simp [hkc, Ne.symm hkc]
      | some b =>
        simp only [hgk, Option.map_some']
        rw [List.find?_cons_of_neg _ (by simp [hkc])]
        rw [find_filterMap_key g c ks]
        simp [Ne.symm hkc]

theorem firstPurchases_lookup (base : List GroupBase) (c : Int) :
    ((firstPurchases base).find? fun p => p.1 == c).map Prod.snd
      = minDateOf ((base.filter fun r => decide (r.customerId = c)).map
          (·.invoiceDate)) := by
  unfold firstPurchases
  rw [find_filterMap_key (fun c' => minDateOf ((base.filter fun r =>
    decide (r.customerId = c')).map (·.invoiceDate))) c]
  by_cases hc : c ∈ uniqueFirst (base.map (·.customerId))
  · simp [hc]
  · have hnil : (base.filter fun r => decide (r.customerId = c)) = [] := by
      rw [List.filter_eq_nil_iff]
      intro r hr
      simp only [decide_eq_true_eq]
      intro hrc
      exact hc ((mem_uniqueFirst _ _).mpr (List.mem_map.mpr ⟨r, hr, hrc⟩))
    simp [hc, hnil, minDateOf]

theorem filter_filterMap_fuse {α β : Type} (p : α → Bool) (f : α → Option β) :
    ∀ l : List α, (l.filter p).filterMap f
      = l.filterMap fun a => if p a then f a else none
  | [] => rfl
  | x :: xs => by
    by_cases hp : p x <;>
      simp [List.filter_cons, List.filterMap_cons, hp, filter_filterMap_fuse p f xs]

/-- **C7 amended.** In get_group_kpis_full, `first_time_customers` for a
group row counts the distinct customers having a purchase in that group
on the date of their first purchase WITHIN the filtered, date-bounded
subset (the minimum invoice date over all of the customer's base rows) —
subset-local semantics, not the all-time global-first-purchase semantics
of the core metrics. -/
theorem get_group_kpis_full_first_time_subset_local (db : Db) (fi : List FiRow)
    (group_var : String) (dateRange : Option (Date × Date)) (row : GroupKpiRow)
    (hrow : row ∈ get_group_kpis_full db fi group_var dateRange) :
    row.first_time_customers =
      ((groupBase db fi group_var dateRange).filterMap fun r =>
        if r.groupVal = row.group_val ∧
            minDateOf (((groupBase db fi group_var dateRange).filter fun r' =>
              decide (r'.customerId = r.customerId)).map (·.invoiceDate))
              = some r.invoiceDate
        then some r.customerId else none).toFinset.card := by
  unfold get_group_kpis_full at hrow
  simp only [List.mem_map] at hrow
  obtain ⟨gv, hgv, hrow⟩ := hrow
  subst hrow
  simp only []
  rw [countDistinct_eq_card]
  congr 2
  have h1 : ((groupBase db fi group_var dateRange).filter fun r =>
        decide (r.groupVal = gv)).filterMap (fun r =>
          match ((firstPurchases (groupBase db fi group_var dateRange)).find? fun p =>
              p.1 == r.customerId).map Prod.snd with
          | some d => if r.invoiceDate = d then some r.customerId else none
          | none => none)
      = ((groupBase db fi group_var dateRange).filter fun r =>
        decide (r.groupVal = gv)).filterMap (fun r =>
          match minDateOf (((groupBase db fi group_var dateRange).filter fun r' =>
              decide (r'.customerId = r.customerId)).map (·.invoiceDate)) with
          | some d => if r.invoiceDate = d then some r.customerId else none
          | none => none) := by
    apply List.filterMap_congr
    intro r _
    rw [firstPurchases_lookup]
  rw [h1, filter_filterMap_fuse]
  apply List.filterMap_congr
  intro r _
  by_cases hgvr : r.groupVal = gv
  · cases hmin : minDateOf (((groupBase db fi group_var dateRange).filter fun r' =>
        decide (r'.customerId = r.customerId)).map (·.invoiceDate)) with
    | none => simp [hgvr, hmin]
    | some d =>
      by_cases hd : r.invoiceDate = d
      · simp [hgvr, hmin, hd]
      · simp [hgvr, hmin, hd, Ne.symm hd]
  · simp [hgvr]

/-- Witness for the amended C7 statement at the concrete database `dbG`,
via the Jazz row of the Genre rollup. -/
theorem get_group_kpis_full_first_time_subset_local_witness :
    ∃ row, (get_group_kpis_full dbG fiG "Genre" (some drG)).find?
        (fun r => r.group_val == "Jazz") = some row
      ∧ row.first_time_customers =
        ((groupBase dbG fiG "Genre" (some drG)).filterMap fun r =>
          if r.groupVal = row.group_val ∧
              minDateOf (((groupBase dbG fiG "Genre" (some drG)).filter fun r' =>
                decide (r'.customerId = r.customerId)).map (·.invoiceDate))
                = some r.invoiceDate
          then some r.customerId else none).toFinset.card := by
  have hsome : ((get_group_kpis_full dbG fiG "Genre" (some drG)).find?
      (fun r => r.group_val == "Jazz")).isSome := by decide
  obtain ⟨row, hrow⟩ := Option.isSome_iff_exists.mp hsome
  exact ⟨row, hrow, get_group_kpis_full_first_time_subset_local dbG fiG "Genre"
    (some drG) row (List.mem_of_find?_eq_some hrow)⟩

/-! ## services/kpis/retention.py — cohort table -/

/-- A row of the cohort retention table. -/
structure CohortRow where
  cohort_month : Date
  month_offset : Int
  num_active_customers : Nat
  cohort_size : Nat
  retention_pct : ℚ
deriving DecidableEq, Repr

/-- `ROUND(x, 4)` (SQL) on exact rationals. -/
def round4 (q : ℚ) : ℚ := (round (q * 10000) : ℚ) / 10000

/-- cohort_dates CTE: each customer's cohort month — the calendar month
of their all-time first purchase, over the ENTIRE Invoice table. -/
def cohort_dates (db : Db) : List (Int × Date) :=
  (uniqueFirst (db.invoices.map (·.customerId))).filterMap fun c =>
    (minDateOf ((db.invoices.filter fun i => decide (i.customerId = c)).map
      (·.invoiceDate))).map fun d => (c, d.firstOfMonth)

/-- cohort_sizes CTE: customers per cohort month, again over the full
Invoice table — a fixed denominator independent of the current filter. -/
def cohort_sizes (db : Db) : List (Date × Nat) :=
  (uniqueFirst ((cohort_dates db).map (·.2))).map fun m =>
    (m, ((cohort_dates db).filter fun p => decide (p.2 = m)).length)

/-- activity CTE rows as (CustomerId, cohort_month, month_offset); the
selected activity_month column is unused downstream and omitted. -/
def cohortActivity (db : Db) (fi : List FiRow) (start end_ : Date)
    (max_offset : Int) : List (Int × Date × Int) :=
  fi.flatMap fun e =>
    (db.invoices.filter fun i => decide (i.invoiceId = e.invoiceId)).flatMap fun i =>
      ((cohort_dates db).filter fun p => decide (p.1 = e.customerId)).filterMap fun p =>
        if Date.monthDiff p.2 i.invoiceDate ≥ 0 && e.dt.betweenB start end_ &&
            Date.monthDiff p.2 i.invoiceDate ≤ max_offset then
          some (e.customerId, p.2, Date.monthDiff p.2 i.invoiceDate)
        else none

/-- activity_counts CTE: distinct active customers per
(cohort_month, month_offset). -/
def activity_counts (acts : List (Int × Date × Int)) : List (Date × Int × Nat) :=
  (uniqueFirst (acts.map fun a => (a.2.1, a.2.2))).map fun k =>
    (k.1, k.2, countDistinct ((acts.filter fun a =>
      decide (a.2.1 = k.1 ∧ a.2.2 = k.2)).map (·.1)))

/-- The invoice dates of the invoices present in the materialized
subset: `filtered_invoices JOIN Invoice`. -/
def joinedInvoiceDates (db : Db) (fi : List FiRow) : List Date :=
  fi.flatMap fun e =>
    (db.invoices.filter fun i => decide (i.invoiceId = e.invoiceId)).map (·.invoiceDate)

/-- Step 1 of get_retention_cohort_data for `max_offset = None`: the
month span of MIN/MAX invoice dates over `filtered_invoices JOIN
Invoice` — i.e. over the CURRENTLY FILTERED subset. -/
def cohortDefaultMaxOffset (db : Db) (fi : List FiRow) : Option Int :=
  match minDateOf (joinedInvoiceDates db fi), maxDateOf (joinedInvoiceDates db fi) with
  | some mn, some mx => some ((mx.year - mn.year) * 12 + (mx.month - mn.month))
  | _, _ => none

/-- Modelled from the claim (§4.5 of the spec): the month span of the
FULL unfiltered dataset's invoice dates. -/
def cohortMaxOffsetFullSpan (db : Db) : Option Int :=
  match minDateOf (db.invoices.map (·.invoiceDate)),
      maxDateOf (db.invoices.map (·.invoiceDate)) with
  | some mn, some mx => some ((mx.year - mn.year) * 12 + (mx.month - mn.month))
  | _, _ => none

/-- Ordering of the final `ORDER BY cohort_month, month_offset`. -/
def cohortOrder (a b : CohortRow) : Prop :=
  Date.lt a.cohort_month b.cohort_month ∨
    (a.cohort_month = b.cohort_month ∧ a.month_offset ≤ b.month_offset)

instance (a b : CohortRow) : Decidable (cohortOrder a b) := by
  unfold cohortOrder; infer_instance

/-- get_retention_cohort_data: cohort retention percentages by month
offset.  When `max_offset` is `None` it is derived from
`cohortDefaultMaxOffset` (the filtered subset's span); the None fallback
of that derivation only arises when the subset joins to no invoice at
all, in which case the activity (and hence the result) is empty for any
offset bound. -/
def get_retention_cohort_data (db : Db) (fi : List FiRow)
    (dateRange : Date × Date) (maxOffset : Option Int) : List CohortRow :=
  let max_offset := match maxOffset with
    | some m => m
    | none => (cohortDefaultMaxOffset db fi).getD 0
  let acts := cohortActivity db fi dateRange.1 dateRange.2 max_offset
  let joined := (activity_counts acts).flatMap fun ac =>
    ((cohort_sizes db).filter fun cs => decide (cs.1 = ac.1)).filterMap fun cs =>
      if ac.2.1 > 0 then
        some (CohortRow.mk ac.1 ac.2.1 ac.2.2 cs.2
          (round4 ((ac.2.2 : ℚ) / (cs.2 : ℚ))))
      else none
  List.insertionSort cohortOrder joined

/-- **C6.** Every row of the cohort retention table has
`month_offset ≥ 1` (offset-0 rows are excluded for every date range and
offset bound), and its `retention_pct` is `num_active_customers /
cohort_size` rounded to 4 places, where `(cohort_month, cohort_size)`
comes from `cohort_sizes`, a function of the full unfiltered Invoice
table only — the denominator does not depend on the current filter. -/
theorem get_retention_cohort_data_row_invariants (db : Db) (fi : List FiRow)
    (dateRange : Date × Date) (maxOffset : Option Int) (row : CohortRow)
    (hrow : row ∈ get_retention_cohort_data db fi dateRange maxOffset) :
    1 ≤ row.month_offset
    ∧ row.retention_pct
        = round4 ((row.num_active_customers : ℚ) / (row.cohort_size : ℚ))
    ∧ (row.cohort_month, row.cohort_size) ∈ cohort_sizes db := by
  unfold get_retention_cohort_data at hrow
  rw [(List.perm_insertionSort cohortOrder _).mem_iff] at hrow
  simp only [List.mem_flatMap, List.mem_filterMap, List.mem_filter] at hrow
  obtain ⟨ac, _, cs, ⟨hcs, hkey⟩, hmk⟩ := hrow
  by_cases hpos : ac.2.1 > 0
  · rw [if_pos hpos] at hmk
    obtain rfl := Option.some_inj.mp hmk
    refine ⟨by simpa using hpos, rfl, ?_⟩
    have : cs.1 = ac.1 := by simpa using hkey
    simpa [← this] using hcs
  · rw [if_neg hpos] at hmk
    exact absurd hmk (by simp)

/-- Concrete database for the cohort/retention theorems: one customer
with purchases in January and February 2020. -/
def dbR : Db :=
  { invoices := [⟨1, 1, ⟨2020, 1, 5⟩, "USA"⟩, ⟨2, 1, ⟨2020, 2, 7⟩, "USA"⟩]
    invoiceLines := [⟨1, 1, 1, 99/100⟩, ⟨2, 1, 1, 99/100⟩]
    tracks := [⟨1, 1, 1⟩]
    genres := [⟨1, "Rock"⟩]
    albums := [⟨1, 1⟩]
    artists := [⟨1, "A"⟩] }

/-- Unfiltered materialized subset of `dbR`. -/
def fiR : List FiRow := [⟨1, ⟨2020, 1, 5⟩, 1⟩, ⟨1, ⟨2020, 2, 7⟩, 2⟩]

/-- Year-long window over `dbR`. -/
def drR : Date × Date := (⟨2020, 1, 1⟩, ⟨2020, 12, 31⟩)

/-- Witness for C6 at `dbR`: the offset-1 row exists and satisfies the
invariants. -/
theorem get_retention_cohort_data_row_invariants_witness :
    ∃ row, (get_retention_cohort_data dbR fiR drR (some 12)).find?
        (fun r => r.month_offset == 1) = some row
      ∧ (1 ≤ row.month_offset
        ∧ row.retention_pct
            = round4 ((row.num_active_customers : ℚ) / (row.cohort_size : ℚ))
        ∧ (row.cohort_month, row.cohort_size) ∈ cohort_sizes dbR) := by
  have hsome : ((get_retention_cohort_data dbR fiR drR (some 12)).find?
      (fun r => r.month_offset == 1)).isSome := by decide
  obtain ⟨row, hrow⟩ := Option.isSome_iff_exists.mp hsome
  exact ⟨row, hrow, get_retention_cohort_data_row_invariants dbR fiR drR (some 12)
    row (List.mem_of_find?_eq_some hrow)⟩

/-- Database for the C8 counterexample: two invoices five months apart,
with a filter that keeps only the June one. -/
def dbM : Db :=
  { invoices := [⟨1, 1, ⟨2020, 1, 15⟩, "USA"⟩, ⟨2, 1, ⟨2020, 6, 10⟩, "USA"⟩]
    invoiceLines := [⟨1, 1, 1, 99/100⟩, ⟨2, 1, 1, 99/100⟩]
    tracks := [⟨1, 1, 1⟩]
    genres := [⟨1, "Rock"⟩]
    albums := [⟨1, 1⟩]
    artists := [⟨1, "A"⟩] }

/-- Filtered subset of `dbM` containing only the June invoice. -/
def fiM : List FiRow := [⟨1, ⟨2020, 6, 10⟩, 2⟩]

/-- **C8 counterexample.** With only the June invoice materialized, the
derived default max offset is 0 (the span of the FILTERED subset), not 5
(the span of the full dataset, January to June); consequently the June
activity at offset 5 from the customer's January cohort is dropped and
the cohort table is empty, whereas it has a row under the full-span
bound the claim asserts. -/
theorem cohort_default_max_offset_counterexample :
    cohortDefaultMaxOffset dbM fiM = some 0
    ∧ cohortMaxOffsetFullSpan dbM = some 5
    ∧ get_retention_cohort_data dbM fiM (⟨2020, 1, 1⟩, ⟨2020, 12, 31⟩) none = []
    ∧ (get_retention_cohort_data dbM fiM (⟨2020, 1, 1⟩, ⟨2020, 12, 31⟩)
        (some 5)).length = 1 := by
  exact ⟨by decide, by decide, by decide, by decide⟩

/-- The whole dataset materialized as a filtered subset (no filters). -/
def fullFi (db : Db) : List FiRow :=
  db.invoices.map fun i => ⟨i.customerId, i.invoiceDate, i.invoiceId⟩

theorem flatMap_congr_mem {α β : Type} {l : List α} {f g : α → List β}
    (h : ∀ a ∈ l, f a = g a) : l.flatMap f = l.flatMap g := by
  induction l with
  | nil => rfl
  | cons x xs ih =>
    simp only [List.flatMap_cons]
    rw [h x (List.mem_cons_self _ _), ih fun a ha => h a (List.mem_cons_of_mem _ ha)]

theorem filter_invoiceId_singleton (l : List Invoice)
    (hnodup : (l.map (·.invoiceId)).Nodup) (i0 : Invoice) (hi0 : i0 ∈ l) :
    l.filter (fun i => decide (i.invoiceId = i0.invoiceId)) = [i0] := by
  induction l with
  | nil => simp at hi0
  | cons x xs ih =>
    simp only [List.map_cons, List.nodup_cons] at hnodup
    rcases List.mem_cons.mp hi0 with rfl | hi0'
    · rw [List.filter_cons_of_pos (by simp)]
      have : xs.filter (fun i => decide (i.invoiceId = i0.invoiceId)) = [] := by
        rw [List.filter_eq_nil_iff]
        intro i hi
        simp only [decide_eq_true_eq]
        intro heq
        exact hnodup.1 (heq ▸ List.mem_map_of_mem (·.invoiceId) hi)
      rw [this]
    · have hne : ¬ (x.invoiceId = i0.invoiceId) := by
        intro heq
        exact hnodup.1 (heq ▸ List.mem_map_of_mem (·.invoiceId) hi0')
      rw [List.filter_cons_of_neg (by simpa using hne)]
      exact ih hnodup.2 hi0'

/-- **C8 amended.** When `max_offset` is unspecified, it is derived from
the span of the invoice dates of the invoices present in the
materialized FILTERED subset (`filtered_invoices JOIN Invoice`); this
coincides with the full unfiltered dataset's span exactly when the
subset contains every invoice (e.g. with no filters), and can differ for
a strict subset. -/
theorem cohortDefaultMaxOffset_full_subset (db : Db)
    (hnodup : (db.invoices.map (·.invoiceId)).Nodup) :
    cohortDefaultMaxOffset db (fullFi db) = cohortMaxOffsetFullSpan db := by
  have hdates : joinedInvoiceDates db (fullFi db) = db.invoices.map (·.invoiceDate) := by
    unfold joinedInvoiceDates fullFi
    rw [List.flatMap_map]
    have : ∀ i0 ∈ db.invoices,
        ((db.invoices.filter fun i =>
          decide (i.invoiceId = (FiRow.mk i0.customerId i0.invoiceDate i0.invoiceId).invoiceId)).map
            (·.invoiceDate)) = [i0.invoiceDate] := by
      intro i0 hi0
      rw [filter_invoiceId_singleton db.invoices hnodup i0 hi0]
      rfl
    rw [flatMap_congr_mem this]
    induction db.invoices with
    | nil => rfl
    | cons x xs ih => simp [List.flatMap_cons, ih]
  unfold cohortDefaultMaxOffset cohortMaxOffsetFullSpan
  rw [hdates]

/-- Witness for the amended C8 statement at `dbM` with the unfiltered
subset: both derivations agree and equal 5 months. -/
theorem cohortDefaultMaxOffset_full_subset_witness :
    (dbM.invoices.map (·.invoiceId)).Nodup
    ∧ cohortDefaultMaxOffset dbM (fullFi dbM) = cohortMaxOffsetFullSpan dbM
    ∧ cohortDefaultMaxOffset dbM (fullFi dbM) = some 5 :=
  ⟨by decide, cohortDefaultMaxOffset_full_subset dbM (by decide), by decide⟩

/-! ## services/kpis/retention.py — retention KPIs -/

/-- Per-customer event boundaries, as produced by the bounds query of
get_retention_kpis (`all_events` / `bounds_all` / `bounds_window`). -/
structure CustRow where
  customerId : Int
  total_purchases : Nat
  first_date : Option Date
  second_date : Option Date
  last_date : Option Date
  last_before_window : Option Date
  first_after_window : Option Date
  num_in_window : Nat
  first_in_window : Option Date
  second_in_window : Option Date
  last_in_window : Option Date
deriving DecidableEq, Repr

/-- all_events: filtered_invoices joined to Invoice, as
(CustomerId, InvoiceId, dt). -/
def custEvents (db : Db) (fi : List FiRow) : List (Int × Int × Date) :=
  fi.flatMap fun e =>
    (db.invoices.filter fun i => decide (i.invoiceId = e.invoiceId)).map fun i =>
      (e.customerId, e.invoiceId, i.invoiceDate)

/-- The `ROW_NUMBER() OVER (ORDER BY dt, InvoiceId)` ordering. -/
def evOrder (a b : Date × Int) : Prop :=
  Date.lt a.1 b.1 ∨ (a.1 = b.1 ∧ a.2 ≤ b.2)

instance (a b : Date × Int) : Decidable (evOrder a b) := by
  unfold evOrder; infer_instance

/-- The per-customer bounds rows of get_retention_kpis, keeping only
customers with in-window activity (`WHERE num_in_window > 0`). -/
def retentionCustRows (db : Db) (fi : List FiRow) (start_date end_date : Date) :
    List CustRow :=
  let evs := custEvents db fi
  (uniqueFirst (evs.map (·.1))).filterMap fun c =>
    let mine := (evs.filter fun v => decide (v.1 = c)).map fun v => (v.2.2, v.2.1)
    let sorted := List.insertionSort evOrder mine
    let dts := mine.map (·.1)
    let windowed := sorted.filter fun p => p.1.betweenB start_date end_date
    let row : CustRow :=
      { customerId := c
        total_purchases := mine.length
        first_date := (sorted.get? 0).map (·.1)
        second_date := (sorted.get? 1).map (·.1)
        last_date := maxDateOf dts
        last_before_window := maxDateOf (dts.filter fun d => Date.ltB d start_date)
        first_after_window := minDateOf (dts.filter fun d => Date.ltB end_date d)
        num_in_window := windowed.length
        first_in_window := (windowed.get? 0).map (·.1)
        second_in_window := (windowed.get? 1).map (·.1)
        last_in_window := maxDateOf (windowed.map (·.1)) }
    if row.num_in_window > 0 then some row else none

/-- The cust_new flag EXACTLY as the source computes it:
`df["num_in_window"] > 0 & df["last_before_window"].isna()`.
Python parses this as `num_in_window > (0 & isna(last_before_window))`
(`&` binds tighter than `>`), and `0 & bool` is 0, so the flag is just
`num_in_window > 0` — true for every row the query keeps. -/
def cust_new (r : CustRow) : Bool :=
  decide ((r.num_in_window : Int)
    > Int.land 0 (if r.last_before_window.isNone then 1 else 0))

/-- Modelled from the claim (§4.5 of the spec): a customer is new iff
their in-window purchase count is positive AND they have no purchase
strictly before the window start. -/
def cust_new_spec (r : CustRow) : Bool :=
  decide (r.num_in_window > 0) && r.last_before_window.isNone

/-- `df["repeat_any"] = df["total_purchases"] > 1`. -/
def repeat_any (r : CustRow) : Bool := decide (r.total_purchases > 1)

/-- `df["repeat_ret"] = ~df["cust_new"] & (df["num_in_window"] > 0)`. -/
def repeat_ret (r : CustRow) : Bool := !cust_new r && decide (r.num_in_window > 0)

/-- `df["repeat_conv"] = df["cust_new"] & ((df["num_in_window"] > 1) |
df["first_after_window"].isna())`. -/
def repeat_conv (r : CustRow) : Bool :=
  cust_new r && (decide (r.num_in_window > 1) || r.first_after_window.isNone)

/-- `df["repeat_window"] = df["num_in_window"] > 1`. -/
def repeat_window (r : CustRow) : Bool := decide (r.num_in_window > 1)

/-- The `month_diff` helper (None-propagating month difference). -/
def month_diff_py (a b : Option Date) : Option Int :=
  match a, b with
  | some x, some y => some (Date.monthDiff x y)
  | _, _ => none

/-- `lifespan_mo_total`. -/
def lifespan_mo_total (r : CustRow) : Option Int :=
  if r.total_purchases > 1 then month_diff_py r.first_date r.last_date else none

/-- `lifespan_window` with its boundary corrections. -/
def lifespan_window (start_date end_date : Date) (r : CustRow) : Option Int :=
  if r.last_before_window.isNone ∧ r.first_after_window.isNone then
    (if r.num_in_window > 1 then month_diff_py r.first_in_window r.last_in_window
     else none)
  else if r.last_before_window.isNone then
    month_diff_py r.first_in_window (some end_date)
  else if r.first_after_window.isNone then
    month_diff_py (some start_date) r.last_in_window
  else some (Date.monthDiff start_date end_date)

/-- The `gap` helper: day difference, None-propagating. -/
def gap_py (a b : Option Date) : Option Int :=
  match a, b with
  | some x, some y => some (Date.daysBetween x y)
  | _, _ => none

def gap_life (r : CustRow) : Option Int :=
  if r.total_purchases > 1 then gap_py r.first_date r.second_date else none

def gap_window (r : CustRow) : Option Int :=
  gap_py r.first_in_window r.second_in_window

def gap_winback (r : CustRow) : Option Int :=
  gap_py r.last_before_window r.first_in_window

def gap_retention (r : CustRow) : Option Int :=
  gap_py r.last_in_window r.first_after_window

def avg_gap_life (r : CustRow) : Option ℚ :=
  if r.total_purchases > 1 then
    (gap_py r.first_date r.last_date).map fun g =>
      (g : ℚ) / ((r.total_purchases : ℚ) - 1)
  else none

def avg_gap_window (r : CustRow) : Option ℚ :=
  if r.num_in_window > 1 then
    (gap_py r.first_in_window r.last_in_window).map fun g =>
      (g : ℚ) / ((r.num_in_window : ℚ) - 1)
  else none

/-- `avg_gap_bound` with its boundary-aware denominators. -/
def avg_gap_bound (r : CustRow) : Option ℚ :=
  if r.last_before_window.isNone ∧ r.first_after_window.isNone then
    avg_gap_window r
  else if r.last_before_window.isSome ∧ r.first_after_window.isSome then
    (gap_py r.last_before_window r.first_after_window).map fun g =>
      (g : ℚ) / ((r.num_in_window : ℚ) + 1)
  else if r.last_before_window.isNone then
    (gap_py r.first_in_window r.first_after_window).map fun g =>
      (g : ℚ) / (r.num_in_window : ℚ)
  else
    (gap_py r.last_before_window r.last_in_window).map fun g =>
      (g : ℚ) / (r.num_in_window : ℚ)

/-- Decidable `≤` on rationals as a Prop (via `ratLeB`). -/
def ratLe (a b : ℚ) : Prop := ratLeB a b = true

instance (a b : ℚ) : Decidable (ratLe a b) := by
  unfold ratLe; infer_instance

/-- `Series.mean(skipna=True)`: nan on an all-missing column. -/
def pandasMean (xs : List (Option ℚ)) : PyFloat :=
  let v := xs.filterMap id
  if v.length = 0 then .nan else .val (v.sum / (v.length : ℚ))

/-- `Series.median(skipna=True)`. -/
def pandasMedian (xs : List (Option ℚ)) : PyFloat :=
  let v := List.insertionSort ratLe (xs.filterMap id)
  if v.length = 0 then .nan
  else if v.length % 2 = 1 then .val (v.getD (v.length / 2) 0)
  else .val ((v.getD (v.length / 2 - 1) 0 + v.getD (v.length / 2) 0) / 2)

/-- The raw (unformatted) retention KPI dict of get_retention_kpis,
over the per-customer bounds rows.  NumPy integer division models the
zero-denominator cases as nan/inf rather than raising. -/
def retention_raw_kpis (start_date end_date : Date) (df : List CustRow) :
    List (String × PyVal) :=
  let n_total : Int := df.length
  let n_new : Int := (df.filter cust_new).length
  let n_repeat : Int := (df.filter repeat_any).length
  let n_ret : Int := (df.filter repeat_ret).length
  let n_conv : Int := (df.filter repeat_conv).length
  let n_rep_w : Int := (df.filter repeat_window).length
  [("num_cust", .pint n_total),
   ("num_new", .pint n_new),
   ("pct_new", .pfloat (npDiv n_new n_total)),
   ("ret_n_any", .pint n_repeat),
   ("ret_rate_any", .pfloat (npDiv n_repeat n_total)),
   ("ret_n_return", .pint n_ret),
   ("ret_rate_return", .pfloat (npDiv n_ret (n_total - n_new))),
   ("ret_n_conv", .pint n_conv),
   ("ret_rate_conv", .pfloat (npDiv n_conv n_new)),
   ("ret_n_window", .pint n_rep_w),
   ("ret_rate_window", .pfloat (npDiv n_rep_w n_total)),
   ("avg_life_mo_tot", .pfloat (pandasMean (df.map fun r =>
      (lifespan_mo_total r).map fun n => (n : ℚ)))),
   ("avg_life_mo_win", .pfloat (pandasMean (df.map fun r =>
      (lifespan_window start_date end_date r).map fun n => (n : ℚ)))),
   ("med_gap_life", .pfloat (pandasMedian (df.map fun r =>
      (gap_life r).map fun n => (n : ℚ)))),
   ("med_gap_window", .pfloat (pandasMedian (df.map fun r =>
      (gap_window r).map fun n => (n : ℚ)))),
   ("med_gap_winback", .pfloat (pandasMedian (df.map fun r =>
      (gap_winback r).map fun n => (n : ℚ)))),
   ("med_gap_ret", .pfloat (pandasMedian (df.map fun r =>
      (gap_retention r).map fun n => (n : ℚ)))),
   ("avg_gap_life", .pfloat (pandasMean (df.map avg_gap_life))),
   ("avg_gap_window", .pfloat (pandasMean (df.map avg_gap_window))),
   ("avg_gap_bound", .pfloat (pandasMean (df.map avg_gap_bound)))]

/-- `startsWith pat l` on character lists. -/
def charStarts : List Char → List Char → Bool
  | [], _ => true
  | _ :: _, [] => false
  | p :: ps, x :: xs => p == x && charStarts ps xs

/-- Substring containment (Python `"pat" in key`). -/
def hasInfixChars (pat : List Char) : List Char → Bool
  | [] => charStarts pat []
  | x :: xs => charStarts pat (x :: xs) || hasInfixChars pat xs

/-- `pat in s` for strings. -/
def strContains (s pat : String) : Bool := hasInfixChars pat.toList s.toList

/-- The per-key format-type dispatch of get_retention_kpis (None →
number; pct/rate → percent; avg/gap/life → float; integral float →
number; else number). -/
def retention_fmt_type (key : String) (val : PyVal) : String :=
  if val = PyVal.pnone then "number"
  else if strContains key "pct" || strContains key "rate" then "percent"
  else if strContains key "avg" || strContains key "gap" || strContains key "life" then
    "float"
  else if (match val with
    | .pfloat (.val q) => decide (|q - ((round q : Int) : ℚ)| < 1 / 10000000000)
    | _ => false) then "number"
  else "number"

/-- `%b` month abbreviations of strftime. -/
def monthAbbrev (m : Int) : String :=
  if m = 1 then "Jan" else if m = 2 then "Feb" else if m = 3 then "Mar"
  else if m = 4 then "Apr" else if m = 5 then "May" else if m = 6 then "Jun"
  else if m = 7 then "Jul" else if m = 8 then "Aug" else if m = 9 then "Sep"
  else if m = 10 then "Oct" else if m = 11 then "Nov" else if m = 12 then "Dec"
  else "???"

/-- `strftime("%b %Y")` of a cohort month. -/
def monthLabel (d : Date) : String := monthAbbrev d.month ++ " " ++ toString d.year

/-- Descending order on `retention_pct` for the top-cohort snapshot
(pandas' unstable sort leaves ties arbitrary — the spec flags the
missing tie-break as an open question; the embedding is stable). -/
def retentionDesc (a b : CohortRow) : Prop := ratLe b.retention_pct a.retention_pct

instance (a b : CohortRow) : Decidable (retentionDesc a b) := by
  unfold retentionDesc; infer_instance

/-- get_retention_kpis: formats the raw KPI dict and appends the
top-cohort snapshots per requested offset.  If the date range is absent
it falls back to the bounds of the joined subset (when those are also
absent the subset is empty and the query yields no customers). -/
def get_retention_kpis (coco : String → String → String) (db : Db)
    (fi : List FiRow) (dateRange : Option (Date × Date))
    (cohort_df : List CohortRow) (offsets : List Int) : List (String × String) :=
  let dr := match dateRange with
    | some d => some d
    | none =>
      match minDateOf (joinedInvoiceDates db fi),
          maxDateOf (joinedInvoiceDates db fi) with
      | some mn, some mx => some (mn, mx)
      | _, _ => none
  match dr with
  | none => []
  | some (start_date, end_date) =>
    let df := retentionCustRows db fi start_date end_date
    if df.length = 0 then []
    else
      let raw := retention_raw_kpis start_date end_date df
      let kpis := raw.map fun kv =>
        (kv.1, fmtCall coco kv.2 (retention_fmt_type kv.1 kv.2) (1/100))
      kpis ++ offsets.flatMap fun off =>
        let subset := cohort_df.filter fun r => decide (r.month_offset = off)
        match List.insertionSort retentionDesc subset with
        | [] =>
          [("top_cohort_month_" ++ toString off, "NA"),
           ("top_cohort_retention_" ++ toString off, "NA")]
        | top :: _ =>
          [("top_cohort_month_" ++ toString off, monthLabel top.cohort_month),
           ("top_cohort_retention_" ++ toString off,
            fmtCall coco (.pfloat (.val top.retention_pct)) "percent" (1/100))]

/-- Lookup in a string-keyed association list (Python dict access). -/
def lookupKV {β : Type} (l : List (String × β)) (k : String) : Option β :=
  (l.find? fun p => p.1 == k).map Prod.snd

/-- Number of customers that are new under the spec's classification. -/
def num_new_spec (df : List CustRow) : Nat := (df.filter cust_new_spec).length

/-- Database for the retention counterexamples: customer 1 has a 2009
purchase and a 2010 purchase, customer 2 only a 2010 purchase. -/
def dbK : Db :=
  { invoices := [⟨1, 1, ⟨2009, 6, 1⟩, "USA"⟩, ⟨2, 1, ⟨2010, 3, 1⟩, "USA"⟩,
                 ⟨3, 2, ⟨2010, 5, 1⟩, "USA"⟩]
    invoiceLines := [⟨1, 1, 1, 99/100⟩, ⟨2, 1, 1, 99/100⟩, ⟨3, 1, 1, 99/100⟩]
    tracks := [⟨1, 1, 1⟩]
    genres := [⟨1, "Rock"⟩]
    albums := [⟨1, 1⟩]
    artists := [⟨1, "A"⟩] }

/-- Unfiltered materialized subset of `dbK`. -/
def fiK : List FiRow :=
  [⟨1, ⟨2009, 6, 1⟩, 1⟩, ⟨1, ⟨2010, 3, 1⟩, 2⟩, ⟨2, ⟨2010, 5, 1⟩, 3⟩]

/-- The 2010 analysis window. -/
def wK : Date × Date := (⟨2010, 1, 1⟩, ⟨2010, 12, 31⟩)

/-- A stand-in for the external country_converter table (never consulted
by the values these theorems force). -/
def cocoStub : String → String → String := fun _ _ => "not found"

/-- **C1 (code bug).** In the 2010 window over `dbK`, customer 1 has a
purchase strictly before the window (`last_before_window` is present),
so under the claimed rule they are NOT new; the code still flags them as
new — the `&`-precedence slip makes `cust_new` equal `num_in_window > 0`
for every considered row — and `num_new` comes out as 2 instead of the
claimed 1 (the repository's own test suite expects the claimed
semantics: tests/test_kpis_retention.py asserts `num_new == "13"` on the
2010 fixture window where the code yields 46). -/
theorem retention_cust_new_code_bug :
    (((retentionCustRows dbK fiK wK.1 wK.2).find? fun r =>
        r.customerId == 1).map fun r => (r.last_before_window.isSome, cust_new r,
          cust_new_spec r)) = some (true, true, false)
    ∧ lookupKV (retention_raw_kpis wK.1 wK.2 (retentionCustRows dbK fiK wK.1 wK.2))
        "num_new" = some (.pint 2)
    ∧ num_new_spec (retentionCustRows dbK fiK wK.1 wK.2) = 1 := by
  exact ⟨by decide, by decide, by decide⟩

/-- **C3 (code bug).** get_retention_kpis applies no zero-denominator
guard: with every considered customer flagged new (C1), the
`ret_rate_return` denominator `n_total - n_new` is 0, NumPy division
yields nan, the broken NaN guard in format_kpi_value lets it through,
and the emitted value is the string "nan%" — not the "NA" sentinel the
claim (and the repository's own test, which asserts "NA" for this case)
requires. -/
theorem retention_rate_zero_denominator_not_guarded :
    lookupKV (get_retention_kpis cocoStub dbK fiK (some wK) [] [])
        "ret_rate_return" = some "nan%"
    ∧ (some "nan%" : Option String) ≠ some "NA" := by
  exact ⟨by decide, by decide⟩

/-! ## services/kpis/group.py — Top-N slicing and display formatting -/

/-- A metric definition as consumed by the orchestrator (only its
`var_name` is used). -/
structure MetricDef where
  var_name : String
deriving DecidableEq, Repr

/-- Column selection `df[metric]` on a rollup row.  A name outside the
rollup's columns would be a pandas KeyError; the orchestrator only
passes the five rollup metrics. -/
def metricOf (r : GroupKpiRow) (m : String) : ℚ :=
  if m = "revenue" then r.revenue
  else if m = "num_customers" then (r.num_customers : ℚ)
  else if m = "num_purchases" then (r.num_purchases : ℚ)
  else if m = "tracks_sold" then (r.tracks_sold : ℚ)
  else if m = "first_time_customers" then (r.first_time_customers : ℚ)
  else 0

/-- Strict `<` on rationals via `ratLeB`. -/
def ratLt (a b : ℚ) : Prop := ratLe a b ∧ ¬ ratLe b a

instance (a b : ℚ) : Decidable (ratLt a b) := by
  unfold ratLt; infer_instance

/-- `sort_values(by=[metric, "group_val"], ascending=[False, True])`:
metric descending, ties broken by group label ascending. -/
def topnOrder (m : String) (a b : GroupKpiRow) : Prop :=
  ratLt (metricOf b m) (metricOf a m)
    ∨ (metricOf a m = metricOf b m ∧ strLe a.group_val b.group_val)

instance (m : String) (a b : GroupKpiRow) : Decidable (topnOrder m a b) := by
  unfold topnOrder; infer_instance

/-- topn_kpis_slice_topn: top-N rows by a metric with the alphabetical
tie-break (the `notna` filter never drops a rollup row, all metric
columns being non-null by construction). -/
def topn_kpis_slice_topn (df : List GroupKpiRow) (metric : String) (n : Nat) :
    List GroupKpiRow :=
  (List.insertionSort (topnOrder metric) df).take n

/-- The genre_catalog temp table (metadata.create_catalog_tables):
distinct tracks per genre name, over the whole catalog. -/
def genre_catalog (db : Db) : List (String × Nat) :=
  let pairs := db.tracks.flatMap fun t =>
    (db.genres.filter fun g => decide (g.genreId = t.genreId)).map fun g =>
      (g.name, t.trackId)
  (uniqueFirst (pairs.map (·.1))).map fun nm =>
    (nm, countDistinct ((pairs.filter fun p => decide (p.1 = nm)).map (·.2)))

/-- The artist_catalog temp table: distinct tracks per artist name. -/
def artist_catalog (db : Db) : List (String × Nat) :=
  let pairs := db.tracks.flatMap fun t =>
    (db.albums.filter fun al => decide (al.albumId = t.albumId)).flatMap fun al =>
      (db.artists.filter fun ar => decide (ar.artistId = al.artistId)).map fun ar =>
        (ar.name, t.trackId)
  (uniqueFirst (pairs.map (·.1))).map fun nm =>
    (nm, countDistinct ((pairs.filter fun p => decide (p.1 = nm)).map (·.2)))

/-- query_catalog_sales for `group_var ∈ {Genre, Artist}` (other values
raise a ValueError before any query; callers pre-validate): per group
value, distinct tracks sold, catalog size from the catalog temp table
(NULL when absent), and percent-of-catalog with a NULLIF(…, 0) guard. -/
def query_catalog_sales (db : Db) (fi : List FiRow) (group_var : String) :
    List (String × Nat × Option Nat × Option ℚ) :=
  let pairs := fi.flatMap fun e =>
    (db.invoiceLines.filter fun il => decide (il.invoiceId = e.invoiceId)).flatMap fun il =>
      if group_var = "Genre" then
        (db.tracks.filter fun t => decide (t.trackId = il.trackId)).flatMap fun t =>
          (db.genres.filter fun g => decide (g.genreId = t.genreId)).map fun g =>
            (g.name, il.trackId)
      else
        (db.tracks.filter fun t => decide (t.trackId = il.trackId)).flatMap fun t =>
          (db.albums.filter fun al => decide (al.albumId = t.albumId)).flatMap fun al =>
            (db.artists.filter fun ar => decide (ar.artistId = al.artistId)).map fun ar =>
              (ar.name, il.trackId)
  let catalog := if group_var = "Genre" then genre_catalog db else artist_catalog db
  (List.insertionSort strLe (uniqueFirst (pairs.map (·.1)))).map fun gv =>
    let uts := countDistinct ((pairs.filter fun p => decide (p.1 = gv)).map (·.2))
    let csize : Option Nat := (catalog.find? fun c => c.1 == gv).map (·.2)
    let pct : Option ℚ := match csize with
      | some c => if c = 0 then none else some ((uts : ℚ) / (c : ℚ))
      | none => none
    (gv, uts, csize, pct)

/-- Format type per display column name in topn_kpis_format_display. -/
def fmtColType (col : String) : String :=
  if strContains col "percent" || strContains col "share" || strContains col "pct" then
    "percent"
  else if strContains col "revenue" then "dollar"
  else if col = "tracks_sold" ∨ col = "num_purchases" ∨ col = "num_customers"
      ∨ col = "catalog_size" ∨ col = "first_time_customers"
      ∨ col = "unique_tracks_sold" then "number"
  else "float"

/-- The raw cell value of a display column as a Python value. -/
def KVal.toPyVal : KVal → PyVal
  | .s v => .pstr v
  | .q v => .pfloat (.val v)
  | .n v => .pint v
  | .f v => .pfloat v
  | _ => .pnone

/-- topn_kpis_format_display: adds the derived per-group averages and
revenue share, the catalog enrichment for Genre/Artist (missing catalog
matches surface as NaN after the left merge), then one `*_fmt` display
column per data column, then the display label.  Emitted as a list of
records — the shape make_serializable gives the frame. -/
def topn_kpis_format_display (coco : String → String → String) (db : Db)
    (fi : List FiRow) (df : List GroupKpiRow) (group_var : String)
    (total_revenue : ℚ) : KVal :=
  let dfRevSum := (df.map (·.revenue)).sum
  KVal.arr (df.map fun r =>
    let share : ℚ :=
      if total_revenue > 0 then r.revenue / total_revenue else r.revenue / dfRevSum
    let cat : Option (Option (Nat × Option Nat × Option ℚ)) :=
      if group_var = "Genre" ∨ group_var = "Artist" then
        some (((query_catalog_sales db fi group_var).find? fun p =>
          p.1 == r.group_val).map (·.2))
      else none
    let base : List (String × KVal) :=
      [("group_val", KVal.s r.group_val),
       ("num_customers", KVal.n (r.num_customers : Int)),
       ("num_purchases", KVal.n (r.num_purchases : Int)),
       ("tracks_sold", KVal.n r.tracks_sold),
       ("revenue", KVal.q r.revenue),
       ("first_time_customers", KVal.n (r.first_time_customers : Int)),
       ("avg_revenue_per_cust", KVal.q (r.revenue / (r.num_customers : ℚ))),
       ("avg_revenue_per_purchase", KVal.q (r.revenue / (r.num_purchases : ℚ))),
       ("avg_tracks_per_purchase", KVal.q ((r.tracks_sold : ℚ) / (r.num_purchases : ℚ))),
       ("revenue_share", KVal.q share)]
      ++ (match cat with
          | none => []
          | some catv =>
            [("unique_tracks_sold",
              match catv with | some c => KVal.n (c.1 : Int) | none => KVal.f .nan),
             ("catalog_size",
              match catv with
              | some c => match c.2.1 with
                | some n => KVal.n (n : Int)
                | none => KVal.f .nan
              | none => KVal.f .nan),
             ("pct_catalog_sold",
              match catv with
              | some c => match c.2.2 with
                | some q => KVal.f (.val q)
                | none => KVal.f .nan
              | none => KVal.f .nan)])
    let fmts := (base.filter fun p => decide (p.1 ≠ "group_val")).map fun p =>
      (p.1 ++ "_fmt", KVal.s (fmtCall coco p.2.toPyVal (fmtColType p.1) (1/100)))
    KVal.dict (base ++ fmts ++
      [("group_val_fmt",
        if strLower group_var = "billingcountry" then
          KVal.s (fmtCall coco (.pstr r.group_val) "country" (1/100))
        else KVal.s r.group_val)]))

/-! ## services/kpis/shared.py — the orchestrator -/

/-- The call at shared.py lines 85-91: it invokes
topn_kpis_format_display with the keyword argument `date_range`, which
the function signature in group.py (`conn, df, group_var,
total_revenue=None`) does not declare — and there is no kwargs
catch-all — so Python raises
`TypeError: ... got an unexpected keyword argument` before the function
body ever runs.  The argument expressions (the slice, the revenue
float) are evaluated first, but being effect-free their evaluation is
unobservable here. -/
def topn_kpis_format_display_kwcall (_coco : String → String → String)
    (_db : Db) (_fi : List FiRow) (_df : List GroupKpiRow) (_group_var : String)
    (_total_revenue : ℚ) (_dateRange : Date × Date) : Except String KVal :=
  Except.error
    "TypeError: topn_kpis_format_display() got an unexpected keyword argument date_range"

/-- get_shared_kpis: core metrics first, empty-dict short circuit, then
per-dimension Top-N tables (one per requested metric plus a `num_vals`
count of distinct group values from the core dict), then the retention
KPIs from the caller-supplied cohort table.  The slice+format call of
the metric loop passes the stale `date_range` keyword
(`topn_kpis_format_display_kwcall`), so the first metric of the first
group raises TypeError; only an empty metrics list reaches the final
bundle. -/
def get_shared_kpis (coco : String → String → String) (db : Db) (fi : List FiRow)
    (metrics : List MetricDef) (dateRange : Date × Date)
    (cohort_df : List CohortRow) (top_n : Nat) (offsets : List Int) :
    Except String (List (String × KVal)) := do
  let metadata_kpis := get_subset_core_kpis coco db fi dateRange
  if metadata_kpis.isEmpty then pure []
  else
    let total_revenue : ℚ := match lookupKV metadata_kpis "revenue_total" with
      | some (KVal.q v) => v
      | _ => 0
    let topn_by_group ← ["Genre", "Artist", "BillingCountry"].mapM fun group => do
      let full_df := get_group_kpis_full db fi group (some dateRange)
      let group_tables ← metrics.foldlM (fun acc m => do
        let formatted ← topn_kpis_format_display_kwcall coco db fi
          (topn_kpis_slice_topn full_df m.var_name top_n) group total_revenue dateRange
        pure (dinsert acc m.var_name formatted)) []
      let group2 := if group = "BillingCountry" then "country" else group
      let group_tables2 := dinsert group_tables "num_vals"
        ((lookupKV metadata_kpis (strLower group2 ++ "_num")).getD (KVal.s "NA"))
      pure ("topn_" ++ strLower group2, KVal.dict group_tables2)
    let retention_kpis := get_retention_kpis coco db fi (some dateRange) cohort_df offsets
    pure [("metadata_kpis", KVal.dict metadata_kpis),
      ("topn", KVal.dict topn_by_group),
      ("retention_kpis", KVal.dict (retention_kpis.map fun p => (p.1, KVal.s p.2)))]

/-- **C9.** A date range in which zero subset rows fall (after month
snapping) makes the core-metrics computation return the empty-dict
sentinel, and the orchestrator then returns an empty bundle normally —
before the metric loop (and its TypeError call, cf. C2) is ever reached
— for EVERY choice of metrics, cohort table, top-N and offsets: no
group rollup or retention work can influence the result. -/
theorem get_shared_kpis_zero_row_short_circuit (coco : String → String → String)
    (db : Db) (fi : List FiRow) (dateRange : Date × Date)
    (h : (fi.filter fun e =>
      e.dt.betweenB dateRange.1.firstOfMonth dateRange.2.lastOfMonth).length = 0) :
    get_subset_core_kpis coco db fi dateRange = []
    ∧ ∀ (metrics : List MetricDef) (cohort_df : List CohortRow)
        (top_n : Nat) (offsets : List Int),
        get_shared_kpis coco db fi metrics dateRange cohort_df top_n offsets
          = Except.ok [] := by
  have hcore := get_subset_core_kpis_empty_sentinel coco db fi dateRange h
  refine ⟨hcore, fun metrics cohort_df top_n offsets => ?_⟩
  unfold get_shared_kpis
  simp [hcore]
  rfl

/-- Witness for C9: the 2015 window contains none of `dbK`'s invoices. -/
theorem get_shared_kpis_zero_row_short_circuit_witness :
    ((fiK.filter fun e => e.dt.betweenB (Date.mk 2015 1 1).firstOfMonth
        (Date.mk 2015 12 31).lastOfMonth).length = 0)
    ∧ get_subset_core_kpis cocoStub dbK fiK (⟨2015, 1, 1⟩, ⟨2015, 12, 31⟩) = []
    ∧ get_shared_kpis cocoStub dbK fiK [⟨"revenue"⟩] (⟨2015, 1, 1⟩, ⟨2015, 12, 31⟩)
        [] 5 [] = Except.ok [] :=
  ⟨by decide,
   (get_shared_kpis_zero_row_short_circuit cocoStub dbK fiK
     (⟨2015, 1, 1⟩, ⟨2015, 12, 31⟩) (by decide)).1,
   (get_shared_kpis_zero_row_short_circuit cocoStub dbK fiK
     (⟨2015, 1, 1⟩, ⟨2015, 12, 31⟩) (by decide)).2 [⟨"revenue"⟩] [] 5 []⟩

/-- The raised exception of a Python-modelling computation, if any. -/
def exceptError {ε α : Type} : Except ε α → Option ε
  | .error e => some e
  | .ok _ => none

/-- **C2 (code bug).** shared.py passes the keyword argument
`date_range` to topn_kpis_format_display, whose signature (group.py)
does not accept it, so for every non-empty filtered subset and
non-empty metrics list the orchestrator raises TypeError at the first
metric of the first group dimension instead of terminating normally
with the claimed `metadata_kpis`/`topn`/`retention_kpis` bundle — which
the repository's own test
(tests/test_kpis_shared.py, test_get_shared_kpis_full_context) expects.
Evaluated here at a concrete non-empty subset and one-metric list. -/
theorem get_shared_kpis_raises_type_error :
    (get_subset_core_kpis cocoStub dbK fiK wK).isEmpty = false
    ∧ exceptError (get_shared_kpis cocoStub dbK fiK [⟨"revenue"⟩] wK [] 5 [])
        = some
          "TypeError: topn_kpis_format_display() got an unexpected keyword argument date_range" := by
  exact ⟨by decide, by decide⟩

end Chinook
